import Mathlib

/-!
Verification of the Rekordbox-XML → Traktor-NML converter
(`rekord_to_nml.py`, class `Rekordbox2Traktor`).

The XML documents on both sides are modelled as rose trees of elements
(`XElem`), mirroring `xml.etree.ElementTree`.  Python float values flowing
through the converter are modelled exactly by `Dec`, a decimal mantissa ×
10^exponent representation: every numeric value the program manipulates is
obtained by parsing a decimal literal, multiplying by 1000, or subtracting,
so the arithmetic is exact decimal arithmetic; binary-float rounding
artefacts of CPython are outside the scope of the claims, which are
structural/relational.

Fallible Python operations (bare `float(...)` casts that can raise
`ValueError`) are embedded with `Option`: `none` models a raised exception
aborting the conversion.
-/

namespace RekordNml

/-! ## XML element model (mirrors `xml.etree.ElementTree` elements) -/

mutual

/-- An XML element: tag, attribute list (in document order), children. -/
inductive XElem : Type where
  | mk (tag : String) (attrs : List (String × String)) (children : XList) : XElem

/-- Children list of an element (a mutual inductive so that recursion over
the tree is structural and kernel-reducible). -/
inductive XList : Type where
  | nil : XList
  | cons (x : XElem) (xs : XList) : XList

end

def XElem.tag : XElem → String
  | .mk t _ _ => t

def XElem.attrs : XElem → List (String × String)
  | .mk _ a _ => a

def XElem.children : XElem → XList
  | .mk _ _ c => c

def XList.toList : XList → List XElem
  | .nil => []
  | .cons x xs => x :: xs.toList

def XList.ofList : List XElem → XList
  | [] => .nil
  | x :: xs => .cons x (XList.ofList xs)

/-- Modelled from the spec: `utils.get_attribute` (module `utils` is not in
the source tree).  Per §3/§6 source tracks are "flat attribute bags";
`get_attribute` is modelled as the plain attribute lookup of
`ElementTree.Element.get`: the attribute's value, or `none` when absent. -/
def get_attribute (e : XElem) (name : String) : Option String :=
  (e.attrs.find? (fun p => p.1 == name)).map (fun p => p.2)

/-- Python truthiness of an optional string (`None` and `""` are falsy). -/
def truthy : Option String → Bool
  | none => false
  | some s => !s.isEmpty

/-- Python `x or d` for an optional string `x` and default `d`. -/
def pyOr (v : Option String) (d : String) : String :=
  if truthy v then v.getD "" else d

/-- Model of `element.findall(tag)`: direct children with the given tag, in order. -/
def findall (e : XElem) (t : String) : List XElem :=
  e.children.toList.filter (fun c => c.tag == t)

/-- Model of `element.find(tag)`: first direct child with the given tag. -/
def findFirst (e : XElem) (t : String) : Option XElem :=
  (findall e t).head?

mutual

/-- All proper descendants of an element, in document (preorder) order. -/
def descendants : XElem → List XElem
  | .mk _ _ cs => descendantsL cs

def descendantsL : XList → List XElem
  | .nil => []
  | .cons c cs => c :: (descendants c ++ descendantsL cs)

end

/-- Model of `root.findall(".//TAG")`: all descendants with the given tag, in
document order. -/
def findallDeep (e : XElem) (t : String) : List XElem :=
  (descendants e).filter (fun c => c.tag == t)

/-! ## Exact decimal numbers (model of the Python floats used here) -/

/-- An exact decimal number `man · 10 ^ exp`.  Models the Python float
values flowing through the converter (all obtained from decimal literals
by ×1000 and subtraction, hence exactly representable). -/
structure Dec where
  man : Int
  exp : Int
deriving DecidableEq

def Dec.ofNat (n : Nat) : Dec := ⟨n, 0⟩

/-- Multiplication by 1000 (seconds → milliseconds). -/
def Dec.mul1000 (d : Dec) : Dec := ⟨d.man, d.exp + 3⟩

/-- Exact subtraction, aligning exponents. -/
def Dec.sub (a b : Dec) : Dec :=
  let m := min a.exp b.exp
  ⟨a.man * (10 : Int) ^ (a.exp - m).toNat - b.man * (10 : Int) ^ (b.exp - m).toNat, m⟩

/-- Python `int(x)`: truncation toward zero. -/
def Dec.trunc (d : Dec) : Int :=
  if 0 ≤ d.exp then d.man * (10 : Int) ^ d.exp.toNat
  else Int.tdiv d.man ((10 : Int) ^ (-d.exp).toNat)

def intStr (i : Int) : String :=
  if i < 0 then "-" ++ toString i.natAbs else toString i.natAbs

/-- Zero-pad a natural number below 10^6 to six digits. -/
def pad6 (n : Nat) : String :=
  let s := toString n
  String.mk (List.replicate (6 - s.length) '0') ++ s

/-- Python `f"{x:.6f}"` on an exact decimal: six fractional digits
(rounding to nearest at the seventh digit; the converter only ever formats
values with at most six fractional digits, where no rounding occurs). -/
def Dec.format6 (d : Dec) : String :=
  let sign := if d.man < 0 then "-" else ""
  let a := d.man.natAbs
  let e := d.exp + 6
  let n6 : Nat :=
    if 0 ≤ e then a * 10 ^ e.toNat
    else (2 * a + 10 ^ (-e).toNat) / (2 * 10 ^ (-e).toNat)
  sign ++ toString (n6 / 1000000) ++ "." ++ pad6 (n6 % 1000000)

def digitsVal (cs : List Char) : Nat :=
  cs.foldl (fun a c => a * 10 + (c.toNat - 48)) 0

def parseExpPart (cs : List Char) : Option Int :=
  match cs with
  | '+' :: ds =>
    if ds.isEmpty || !ds.all Char.isDigit then none else some (digitsVal ds)
  | '-' :: ds =>
    if ds.isEmpty || !ds.all Char.isDigit then none else some (-(digitsVal ds : Int))
  | ds =>
    if ds.isEmpty || !ds.all Char.isDigit then none else some (digitsVal ds)

/-- Model of Python `float(s)` on decimal literals: optional sign, digits
with an optional fractional part, optional decimal exponent.  `none`
models a raised `ValueError`.  (The exotic alternatives CPython also
accepts — `inf`/`nan`, digit-group underscores, surrounding whitespace —
do not occur in the library files this converter consumes and are treated
as unparseable.) -/
def pyFloat (s : String) : Option Dec :=
  let cs := s.data
  let signNeg : Bool × List Char :=
    match cs with
    | '-' :: rest => (true, rest)
    | '+' :: rest => (false, rest)
    | _ => (false, cs)
  let neg := signNeg.1
  let cs1 := signNeg.2
  let ip := cs1.takeWhile Char.isDigit
  let rest1 := cs1.dropWhile Char.isDigit
  let fracRest : List Char × List Char :=
    match rest1 with
    | '.' :: r => (r.takeWhile Char.isDigit, r.dropWhile Char.isDigit)
    | _ => ([], rest1)
  let f := fracRest.1
  let rest2 := if rest1.head? = some '.' then fracRest.2 else rest1
  if ip.isEmpty && f.isEmpty then none
  else
    let base : Dec := ⟨digitsVal ip * 10 ^ f.length + digitsVal f, -(f.length : Int)⟩
    let signed : Dec → Dec := fun b => if neg then ⟨-b.man, b.exp⟩ else b
    match rest2 with
    | [] => some (signed base)
    | 'e' :: es => (parseExpPart es).map (fun e => signed ⟨base.man, base.exp + e⟩)
    | 'E' :: es => (parseExpPart es).map (fun e => signed ⟨base.man, base.exp + e⟩)
    | _ => none

/-- Sanity checks of the float-literal parser. -/
theorem pyFloat_sanity :
    pyFloat "120.0" = some ⟨1200, -1⟩ ∧ pyFloat "abc" = none ∧
    pyFloat "" = none ∧ pyFloat "-2.5e1" = some ⟨-25, 0⟩ ∧
    pyFloat "1." = some ⟨1, 0⟩ ∧ pyFloat "." = none :=
  ⟨rfl, rfl, rfl, rfl, rfl, rfl⟩

/-- Sanity checks of the 6-decimal formatter. -/
theorem format6_sanity :
    Dec.format6 ⟨1200, -1⟩ = "120.000000" ∧ Dec.format6 ⟨-5, -1⟩ = "-0.500000" ∧
    Dec.format6 (Dec.sub ⟨2, 3⟩ ⟨5, -1⟩) = "1999.500000" :=
  ⟨rfl, rfl, rfl⟩

/-! ## The TrackID → file-path lookup table (`self.track_id_map`) -/

/-- The converter's `track_id_map`, a Python `dict` modelled as an
association list where the most recent insertion shadows earlier ones. -/
abbrev Dict := List (String × String)

def Dict.empty : Dict := []

/-- Insertion `m[k] = v` (later insertions shadow earlier ones). -/
def Dict.insert (m : Dict) (k v : String) : Dict := (k, v) :: m

/-- Lookup `m[k]` / `k in m`: the most recently inserted value for `k`. -/
def Dict.find (m : Dict) (k : String) : Option String :=
  (List.find? (fun p => p.1 == k) m).map (fun p => p.2)

/-! ## Helpers from the `utils`/`consts` modules (not in the source tree) -/

structure LocationData where
  VOLUME : String
  DIR : String
  FILE : String

/-- Split a character list on `'/'` (kernel-reducible `str.split("/")`). -/
def splitSlash : List Char → List (List Char)
  | [] => [[]]
  | '/' :: rest => [] :: splitSlash rest
  | c :: rest =>
    match splitSlash rest with
    | [] => [[c]]
    | p :: ps => (c :: p) :: ps

/-- Join character lists with `'/'` (kernel-reducible `"/".join`). -/
def joinSlash : List (List Char) → List Char
  | [] => []
  | [p] => p
  | p :: ps => p ++ '/' :: joinSlash ps

/-- Modelled from the spec: `utils.get_location` (module `utils` is not in
the source tree) derives "a volume/directory/filename triple … from a
source-format file URI" (§3).  The spec fixes no concrete splitting rule;
we model it as: strip a `file://localhost` URI prefix, the part after the
last `/` is FILE, the rest is DIR and VOLUME is empty.  The claims depend
only on the triple being a pure function of the location string, never on
the concrete split.  Per §7 it recovers locally (total, never raises). -/
def get_location (loc : String) : LocationData :=
  let cs :=
    if ("file://localhost".data).isPrefixOf loc.data
    then loc.data.drop 16 else loc.data
  let parts := splitSlash cs
  let file := (parts.getLast?).getD []
  let dir :=
    joinSlash parts.dropLast ++ (if parts.length ≤ 1 then [] else ['/'])
  ⟨"", String.mk dir, String.mk file⟩

/-- Modelled from the spec: `utils.get_tonalikey` translates key notation
"through fixed lookup tables" (§4.1) whose contents live outside the
source tree; modelled as the identity on the source string.  No claim
depends on the table's contents. -/
def get_tonalikey (s : String) : String := s

/-- Modelled from the spec: `utils.get_track_color`, a fixed color-code
lookup outside the source tree; modelled as the identity. -/
def get_track_color (s : String) : String := s

/-- Modelled from the spec: `utils.get_cue_type` translates the source
cue-type code "through a fixed lookup table" (§4.4) outside the source
tree; modelled as the source code string (empty when absent). -/
def get_cue_type (t : Option String) : String := t.getD ""

/-- Modelled from the spec: `utils.format_date` converts a source
timestamp to the destination format; the spec fixes no concrete format,
so it is modelled as the identity. -/
def format_date (s : String) : String := s

/-- Modelled from the spec: `utils.today` — the current date used when a
track has no modification date.  Current time is not observable in the
embedding; modelled as a fixed string.  No claim depends on it. -/
def today : String := "2000/1/1"

/-- Modelled from the spec: `utils.set_cue_color` attaches "a color
annotation using the destination format's color encoding" (§4.4), "a
fixed lookup, not an algorithm"; modelled as a function of the three
channel strings.  No claim depends on the encoding. -/
def set_cue_color_value (r g b : String) : String := r ++ "," ++ g ++ "," ++ b

/-- Modelled from the spec: `consts.KEY_TO_CODE.get(key, "10d")` — the
key-code table lives outside the source tree, so the lookup is modelled
as always falling back to the documented default code. -/
def key_to_code_get (_k : String) : String := "10d"

/-- Python `uuid.uuid4().hex` is a fresh random identifier; nondeterminism is not
observable in the embedding and no claim depends on the value, so it is
modelled as a fixed placeholder. -/
def uuid4_hex : String := "00000000000000000000000000000000"

/-- Python `uuid.uuid4().hex[:8]`, same modelling as `uuid4_hex`. -/
def uuid4_hex8 : String := "00000000"

/-- Model of `generate_audio_id`: the static AUDIO_ID placeholder constant. -/
def generate_audio_id : String :=
  "AWAWZmRENDMzMzf//////////////////////f/////////////////////s/////////////////////5b///7//////////+//////af/////////////////////+///////////f/////////1n/////////9Y///////////f/////////+r/7///////9XYzMzM0MyMzJUMzNDNDMzRDn//////////////////////f/////////////////////e/////////////////////3r+/+////////7u7u/v////vf//7////////v/+//////+FZneYYQAAAA=="

/-! ## Track Mapper (`set_track_info`) -/

/-- The intermediate track record `self.track_info`. -/
structure TrackInfo where
  id : String
  title : String
  artist : String
  album : String
  key : String
  bpm : Dec
  color : String
  genre : String
  playtime : String
  playcount : String
  bitrate : Dec
  import_date : String
  modif_date : String
  last_played : String
  ranking : String
  filesize : String
  location : String
  comments : String

/-- Helper `safe_float` inside `set_track_info`: `float(value) if value else
default`, with parse failures falling back to the default (never raises). -/
def safe_float (value : String) (default : Dec) : Dec :=
  if value.isEmpty then default else (pyFloat value).getD default

/-- Helper `safe_get_attr` inside `set_track_info`. -/
def safe_get_attr (track : XElem) (name : String) (default : String) : String :=
  pyOr (get_attribute track name) default

def set_track_info (track : XElem) : TrackInfo :=
  let avg_bpm := safe_get_attr track "AverageBpm" "120.0"
  let bitrate := safe_get_attr track "BitRate" "320"
  { id := pyOr (get_attribute track "TrackId") uuid4_hex8
    title := safe_get_attr track "Name" ""
    artist := safe_get_attr track "Artist" ""
    album := safe_get_attr track "Album" ""
    key := get_tonalikey (safe_get_attr track "Tonality" "")
    bpm := safe_float avg_bpm (Dec.ofNat 120)
    color := get_track_color (safe_get_attr track "Colour" "")
    genre := safe_get_attr track "Genre" ""
    playtime := safe_get_attr track "TotalTime" "0"
    playcount := safe_get_attr track "PlayCount" "0"
    bitrate := Dec.mul1000 (safe_float bitrate (Dec.ofNat 320))
    import_date := format_date (safe_get_attr track "DateAdded" "")
    modif_date := format_date (safe_get_attr track "DateModified" "")
    last_played := format_date (safe_get_attr track "LastPlayed" "")
    ranking := safe_get_attr track "Rating" "0"
    filesize := safe_get_attr track "Size" "0"
    location := safe_get_attr track "Location" ""
    comments := safe_get_attr track "Comments" "" }

/-- Model of `sec_2_ms` on an attribute value: `float(t) * 1000 if t else 0`
(`none` models a raised `ValueError` on an unparseable non-empty value). -/
def sec_2_ms (t : Option String) : Option Dec :=
  if truthy t then (pyFloat (t.getD "")).map Dec.mul1000 else some ⟨0, 0⟩

/-! ## Track Emitter (the `add_*` element builders) -/

def add_location (info : TrackInfo) : XElem :=
  let ld := get_location info.location
  .mk "LOCATION"
    [("DIR", ld.DIR), ("FILE", ld.FILE), ("VOLUME", ld.VOLUME), ("VOLUMEID", ld.VOLUME)]
    .nil

/-- Model of `add_album`: the ALBUM block, omitted when the album field is empty. -/
def add_album (info : TrackInfo) : List XElem :=
  if info.album.isEmpty then [] else [.mk "ALBUM" [("TITLE", info.album)] .nil]

def add_modification_info : XElem :=
  .mk "MODIFICATION_INFO" [("AUTHOR_TYPE", "user")] .nil

def add_info (info : TrackInfo) : XElem :=
  let playtime := if info.playtime.isEmpty then "0" else info.playtime
  let playtime_float := (pyFloat playtime).getD ⟨0, 0⟩
  let key_code := key_to_code_get info.key
  let base :=
    [("BITRATE", intStr info.bitrate.trunc),
     ("GENRE", info.genre),
     ("KEY", key_code),
     ("PLAYCOUNT", if info.playcount.isEmpty then "0" else info.playcount),
     ("PLAYTIME", playtime),
     ("PLAYTIME_FLOAT", playtime_float.format6),
     ("RANKING", if info.ranking.isEmpty then "0" else info.ranking),
     ("IMPORT_DATE", info.import_date),
     ("LAST_PLAYED", info.last_played),
     ("FLAGS", "12"),
     ("COLOR", info.color)]
  .mk "INFO" (base ++ (if info.comments.isEmpty then [] else [("COMMENT", info.comments)])) .nil

def add_tempo (info : TrackInfo) : XElem :=
  .mk "TEMPO" [("BPM", info.bpm.format6), ("BPM_QUALITY", "100.000000")] .nil

def add_loudness : XElem :=
  .mk "LOUDNESS" [("PEAK_DB", "-1.0"), ("PERCEIVED_DB", "-1.0"), ("ANALYZED_DB", "-1.0")] .nil

def add_musical_key (info : TrackInfo) : XElem :=
  .mk "MUSICAL_KEY" [("VALUE", info.key)] .nil

def add_beatmarker (start_ms : Dec) (bpm : Dec) (is_autogrid : Bool) : XElem :=
  let name := if is_autogrid then "AutoGrid" else "Beat Marker"
  .mk "CUE_V2"
    [("NAME", name), ("DISPL_ORDER", "0"), ("TYPE", "4"),
     ("START", start_ms.format6), ("LEN", "0.000000"),
     ("REPEATS", "-1"), ("HOTCUE", "-1")]
    (.cons (.mk "GRID" [("BPM", bpm.format6)] .nil) .nil)

def add_autogrid (start_ms : Dec) : XElem :=
  .mk "CUE_V2"
    [("NAME", "AutoGrid"), ("DISPL_ORDER", "0"), ("TYPE", "0"),
     ("START", start_ms.format6), ("LEN", "0.000000"),
     ("REPEATS", "-1"), ("HOTCUE", "0"), ("COLOR", "#FFFFFF")]
    .nil

/-- Model of `add_cue`: translate one POSITION_MARK into a CUE_V2 element, threading
`self.cue_index` (which is incremented on every call); `none` models a
raised `ValueError` on an unparseable Start/End time. -/
def add_cue (cue_index : Nat) (position_mark : XElem) : Option (XElem × Nat) := do
  let cue_type := get_attribute position_mark "Type"
  let start_sec := get_attribute position_mark "Start"
  let end_sec := get_attribute position_mark "End"
  let num := get_attribute position_mark "Num"
  let name := pyOr (get_attribute position_mark "Name") "n.n."
  let start_ms ← sec_2_ms start_sec
  let loop_length ←
    if truthy end_sec then (sec_2_ms end_sec).map (fun e => Dec.sub e start_ms)
    else some ⟨0, 0⟩
  let hotcue :=
    if truthy num && (num.getD "" != "-1") then num.getD "" else toString cue_index
  let r := get_attribute position_mark "Red"
  let g := get_attribute position_mark "Green"
  let b := get_attribute position_mark "Blue"
  let colorAttrs :=
    if truthy r && truthy g && truthy b
    then [("COLOR", set_cue_color_value (r.getD "") (g.getD "") (b.getD ""))]
    else []
  some (.mk "CUE_V2"
    ([("NAME", name), ("DISPL_ORDER", "0"), ("TYPE", get_cue_type cue_type),
      ("START", start_ms.format6), ("LEN", loop_length.format6),
      ("REPEATS", "-1"), ("HOTCUE", hotcue)] ++ colorAttrs)
    .nil, cue_index + 1)

/-! ## Beat-grid reconstruction (`process_tempo`) -/

/-- The BPM used for one TEMPO element:
`float(get_attribute(tempo, "Bpm") or str(self.track_info['bpm']))` —
`float(str(x))` is the identity on the track's BPM value. -/
def tempo_bpm (bpm : Dec) (tempo : XElem) : Option Dec :=
  if truthy (get_attribute tempo "Bpm")
  then pyFloat ((get_attribute tempo "Bpm").getD "")
  else some bpm

/-- The start time (seconds) of one TEMPO element:
`float(get_attribute(tempo, "Inizio") or "0")`. -/
def tempo_start (tempo : XElem) : Option Dec :=
  pyFloat (pyOr (get_attribute tempo "Inizio") "0")

/-- The elements emitted for one TEMPO marker at loop position `i`
(the marker, plus the grid anchor when it is the first one). -/
def tempo_marker (bpm : Dec) (i : Nat) (tempo : XElem) : Option (List XElem) := do
  let start_sec ← tempo_start tempo
  let bpmv ← tempo_bpm bpm tempo
  let start_ms := start_sec.mul1000
  if i == 0 then some [add_beatmarker start_ms bpmv true, add_autogrid start_ms]
  else some [add_beatmarker start_ms bpmv false]

/-- The `for i, tempo in enumerate(tempo_elements)` loop of `process_tempo`. -/
def tempoLoop (bpm : Dec) : Nat → List XElem → Option (List XElem)
  | _, [] => some []
  | i, t :: ts => do
    let cur ← tempo_marker bpm i t
    let rest ← tempoLoop bpm (i + 1) ts
    some (cur ++ rest)

/-- Model of `process_tempo`: the CUE_V2 elements appended for the track's beat
grid, given the track record's average BPM. -/
def process_tempo (track : XElem) (bpm : Dec) : Option (List XElem) :=
  match findall track "TEMPO" with
  | [] => some [add_beatmarker ⟨0, 0⟩ bpm true, add_autogrid ⟨0, 0⟩]
  | [t] => tempo_marker bpm 0 t
  | ts => tempoLoop bpm 0 ts

/-! ## Cue translation (`process_cues`) -/

/-- The `for position_mark in position_marks` loop of `process_cues`:
marks named "AutoGrid" are skipped (`continue`) before `add_cue` runs. -/
def cuesLoop : Nat → List XElem → Option (List XElem × Nat)
  | i, [] => some ([], i)
  | i, pm :: pms =>
    if get_attribute pm "Name" == some "AutoGrid" then cuesLoop i pms
    else do
      let (c, i1) ← add_cue i pm
      let (cs, i2) ← cuesLoop i1 pms
      some (c :: cs, i2)

/-- Model of `process_cues` starting from the given `self.cue_index`. -/
def process_cues (track : XElem) (cue_index : Nat) : Option (List XElem × Nat) :=
  cuesLoop cue_index (findall track "POSITION_MARK")

/-! ## `process_track`: one source track → one collection ENTRY -/

/-- Model of `process_track`: `reset_track` sets `cue_index` to 1, then the ENTRY
element is built with its children in emission order.  `none` models an
exception raised while processing tempo markers or cues. -/
def process_track (track : XElem) : Option XElem := do
  let info := set_track_info track
  let grid ← process_tempo track info.bpm
  let cuesIdx ← process_cues track 1
  let children :=
    [add_location info] ++ add_album info ++
    [add_modification_info, add_info info, add_tempo info, add_loudness,
     add_musical_key info] ++ grid ++ cuesIdx.1
  some (.mk "ENTRY"
    [("MODIFIED_DATE", if info.modif_date.isEmpty then today else info.modif_date),
     ("MODIFIED_TIME", "0"),
     ("AUDIO_ID", generate_audio_id),
     ("TITLE", info.title),
     ("ARTIST", info.artist)]
    (XList.ofList children))

/-- The file path recorded for a track in the conversion loop:
`f"{loc['VOLUME']}{loc['DIR']}{loc['FILE']}"`. -/
def track_file_path (track : XElem) : String :=
  let ld := get_location ((get_attribute track "Location").getD "")
  ld.VOLUME ++ ld.DIR ++ ld.FILE

/-- The `for track in entries` loop of `convert_xml_to_nml`: accumulates
the emitted collection entries, the ordered path list `self.tracks`, and
`self.track_id_map` (inserted only when the track's TrackID is truthy). -/
def track_loop : List XElem → List XElem → List String → Dict →
    Option (List XElem × List String × Dict)
  | [], es, ps, m => some (es, ps, m)
  | t :: ts, es, ps, m => do
    let e ← process_track t
    let path := track_file_path t
    let tid := get_attribute t "TrackID"
    let m1 := if truthy tid then m.insert (tid.getD "") path else m
    track_loop ts (es ++ [e]) (ps ++ [path]) m1

/-! ## Playlist Translator (`process_playlist_node`, `process_playlists`) -/

/-- The destination ENTRY/PRIMARYKEY pair for a resolved playlist track. -/
def mkPlaylistEntry (file_path : String) : XElem :=
  .mk "ENTRY" [] (.cons (.mk "PRIMARYKEY" [("TYPE", "TRACK"), ("KEY", file_path)] .nil) .nil)

/-- One iteration of the `for track_elem in track_elements` loop:
`track_id = get_attribute(track_elem, "Key")`; an ENTRY is appended only
when the id is truthy and present in `track_id_map`. -/
def playlist_entry (m : Dict) (track_elem : XElem) : Option XElem :=
  let track_id := get_attribute track_elem "Key"
  if truthy track_id then
    match m.find (track_id.getD "") with
    | some fp => some (mkPlaylistEntry fp)
    | none => none
  else none

/-- The ENTRY children of a destination PLAYLIST element. -/
def playlist_entries (m : Dict) (track_elems : List XElem) : List XElem :=
  track_elems.filterMap (playlist_entry m)

mutual

/-- Model of `process_playlist_node`: the destination nodes appended to the parent
SUBNODES element for one source node (zero or one of them). -/
def process_playlist_node (m : Dict) : XElem → List XElem
  | .mk tg attrs children =>
    let node : XElem := .mk tg attrs children
    let node_type := get_attribute node "Type"
    let node_name := get_attribute node "Name"
    if !truthy node_name then []
    else if node_type == some "0" then
      -- Folder: recurse into each child NODE, counting every child.
      [XElem.mk "NODE" [("TYPE", "FOLDER"), ("NAME", node_name.getD "")]
        (.cons (.mk "SUBNODES"
          [("COUNT", toString (findall node "NODE").length)]
          (XList.ofList (ppn_children m children))) .nil)]
    else if node_type == some "1" then
      -- Playlist: skipped entirely when it has no TRACK elements.
      let track_elements := findall node "TRACK"
      if track_elements.isEmpty then []
      else
        [XElem.mk "NODE" [("TYPE", "PLAYLIST"), ("NAME", node_name.getD "")]
          (.cons (.mk "PLAYLIST"
            [("ENTRIES", toString track_elements.length), ("TYPE", "LIST"),
             ("UUID", uuid4_hex)]
            (XList.ofList (playlist_entries m track_elements))) .nil)]
    else []

/-- The recursion of `process_playlist_node` over
`rekordbox_node.findall("NODE")`: children that are not NODE elements
contribute nothing. -/
def ppn_children (m : Dict) : XList → List XElem
  | .nil => []
  | .cons c cs =>
    (if c.tag == "NODE" then process_playlist_node m c else []) ++ ppn_children m cs

end

/-- Model of `add_default_playlist`: a PLAYLISTS section holding one "collection"
playlist listing every converted track path, in processing order. -/
def add_default_playlist (tracks : List String) : XElem :=
  .mk "PLAYLISTS" []
    (.cons (.mk "NODE" [("TYPE", "FOLDER"), ("NAME", "$ROOT")]
      (.cons (.mk "SUBNODES" [("COUNT", "1")]
        (.cons (.mk "NODE" [("TYPE", "PLAYLIST"), ("NAME", "collection")]
          (.cons (.mk "PLAYLIST"
            [("ENTRIES", toString tracks.length), ("TYPE", "LIST"), ("UUID", uuid4_hex)]
            (XList.ofList (tracks.map mkPlaylistEntry))) .nil)) .nil)) .nil)) .nil)

/-- Model of `process_playlists`: the PLAYLISTS elements appended to the NML root.
When the source has no PLAYLISTS section, or it has no ROOT node, the
default collection playlist is emitted (in the latter case after an empty
PLAYLISTS skeleton, exactly as the code does). -/
def process_playlists (rekordbox_root : XElem) (m : Dict) (tracks : List String) :
    List XElem :=
  match findFirst rekordbox_root "PLAYLISTS" with
  | none => [add_default_playlist tracks]
  | some pls =>
    match findFirst pls "NODE" with
    | some root_node =>
      [.mk "PLAYLISTS" []
        (.cons (.mk "NODE" [("TYPE", "FOLDER"), ("NAME", "$ROOT")]
          (.cons (.mk "SUBNODES"
            [("COUNT", toString (findall root_node "NODE").length)]
            (XList.ofList (ppn_children m root_node.children))) .nil)) .nil)]
    | none =>
      [.mk "PLAYLISTS" []
        (.cons (.mk "NODE" [("TYPE", "FOLDER"), ("NAME", "$ROOT")]
          (.cons (.mk "SUBNODES" [] .nil) .nil)) .nil),
       add_default_playlist tracks]

/-! ## `convert_xml_to_nml`: the whole pipeline -/

/-- Model of `convert_xml_to_nml` on an already-parsed source document: the
assembled NML root element (serialization is outside the embedding).
Note the track scan is `root.findall(".//TRACK")` — every TRACK
descendant of the document root, at any depth. -/
def convert_xml_to_nml (root : XElem) : Option XElem := do
  let entries := findallDeep root "TRACK"
  let head : XElem := .mk "HEAD"
    [("COMPANY", "www.native-instruments.com"), ("PROGRAM", "Traktor Pro 4")] .nil
  let (es, ps, m) ← track_loop entries [] [] Dict.empty
  let collection : XElem := .mk "COLLECTION"
    [("ENTRIES", toString entries.length)] (XList.ofList es)
  let sets : XElem := .mk "SETS" [("ENTRIES", "0")] .nil
  let playlists := process_playlists root m ps
  let indexing : XElem := .mk "INDEXING" [] .nil
  some (.mk "NML" [("VERSION", "20")]
    (XList.ofList ([head, collection, sets] ++ playlists ++ [indexing])))

/-! ## Helper lemmas -/

theorem XList.toList_ofList (l : List XElem) : (XList.ofList l).toList = l := by
  induction l with
  | nil => rfl
  | cons x xs ih => simp [XList.ofList, XList.toList, ih]

theorem dict_find_insert_isSome (m : Dict) (k v q : String)
    (h : (m.find q).isSome = true) : ((m.insert k v).find q).isSome = true := by
  by_cases hk : k == q
  · simp [Dict.insert, Dict.find, List.find?, hk]
  · simp only [Dict.insert, Dict.find, List.find?, hk] at *
    exact h

theorem dict_find_insert_self (m : Dict) (k v : String) :
    (m.insert k v).find k = some v := by
  simp [Dict.insert, Dict.find, List.find?]

theorem dict_find_mem (m : Dict) (k v : String) (h : m.find k = some v) :
    (k, v) ∈ m := by
  unfold Dict.find at h
  rcases Option.map_eq_some'.mp h with ⟨p, hp, hv⟩
  have hmem := List.mem_of_find?_eq_some hp
  have hpred := List.find?_some hp
  have hk : p.1 = k := eq_of_beq (by simpa using hpred)
  obtain ⟨a, b⟩ := p
  simp only at hk hv
  subst hk
  subst hv
  exact hmem

theorem length_filterMap_eq (f : XElem → Option XElem) (l : List XElem) :
    (l.filterMap f).length = (l.filter (fun x => (f x).isSome)).length := by
  induction l with
  | nil => rfl
  | cons x xs ih =>
    cases hfx : f x <;> simp [List.filterMap_cons, List.filter_cons, hfx, ih]

theorem length_filter_lt_of_exists_not (p : XElem → Bool) (l : List XElem)
    (h : ∃ x ∈ l, p x = false) : (l.filter p).length < l.length := by
  induction l with
  | nil => simp at h
  | cons x xs ih =>
    rcases h with ⟨y, hy, hpy⟩
    rcases List.mem_cons.mp hy with rfl | hy'
    · simp only [List.filter_cons, hpy]
      calc (xs.filter p).length ≤ xs.length := List.length_filter_le p xs
        _ < (y :: xs).length := by simp
    · by_cases hpx : p x = true
      · simpa [List.filter_cons, hpx] using Nat.succ_lt_succ (ih ⟨y, hy', hpy⟩)
      · have hpx' : p x = false := by simpa using hpx
        simp only [List.filter_cons, hpx']
        calc (xs.filter p).length < xs.length := ih ⟨y, hy', hpy⟩
          _ < (x :: xs).length := by simp

/-- The child loop of a folder node, as a flat map over its NODE children. -/
theorem ppn_children_eq (m : Dict) : (cs : XList) →
    ppn_children m cs =
      (cs.toList.filter (fun c => c.tag == "NODE")).flatMap (process_playlist_node m)
  | .nil => rfl
  | .cons c cs => by
    have ih := ppn_children_eq m cs
    by_cases hc : c.tag == "NODE" <;>
      simp [ppn_children, XList.toList, List.filter_cons, hc, ih]

/-- Unfolding of `process_playlist_node` on a playlist node with a
non-empty name and at least one TRACK element. -/
theorem playlist_node_eq (m : Dict) (node : XElem)
    (hty : get_attribute node "Type" = some "1")
    (hnm : truthy (get_attribute node "Name") = true)
    (hne : (findall node "TRACK").isEmpty = false) :
    process_playlist_node m node =
      [XElem.mk "NODE" [("TYPE", "PLAYLIST"), ("NAME", (get_attribute node "Name").getD "")]
        (.cons (.mk "PLAYLIST"
          [("ENTRIES", toString (findall node "TRACK").length), ("TYPE", "LIST"),
           ("UUID", uuid4_hex)]
          (XList.ofList (playlist_entries m (findall node "TRACK")))) .nil)] := by
  cases node with
  | mk tg attrs children =>
    simp only [process_playlist_node, hty, hnm, hne]
    simp

/-- Unfolding of `process_playlist_node` on a folder node with a
non-empty name. -/
theorem folder_node_eq (m : Dict) (node : XElem)
    (hty : get_attribute node "Type" = some "0")
    (hnm : truthy (get_attribute node "Name") = true) :
    process_playlist_node m node =
      [XElem.mk "NODE" [("TYPE", "FOLDER"), ("NAME", (get_attribute node "Name").getD "")]
        (.cons (.mk "SUBNODES"
          [("COUNT", toString (findall node "NODE").length)]
          (XList.ofList (ppn_children m node.children))) .nil)] := by
  cases node with
  | mk tg attrs children =>
    simp only [process_playlist_node, hty, hnm]
    simp [XElem.children]

/-! ## Concrete inputs used by counterexamples and witnesses -/

/-- A folder node containing exactly one playlist node with no TRACK
elements (an "empty playlist"). -/
def folderWithEmptyPlaylist : XElem :=
  .mk "NODE" [("Type", "0"), ("Name", "F")]
    (.cons (.mk "NODE" [("Type", "1"), ("Name", "P")] .nil) .nil)

/-- A playlist node whose only TRACK reference has an unresolvable Key. -/
def playlistOnlyUnresolvable : XElem :=
  .mk "NODE" [("Type", "1"), ("Name", "P")]
    (.cons (.mk "TRACK" [("Key", "99")] .nil) .nil)

/-- A lookup table resolving only TrackID "1". -/
def mapOnly1 : Dict := Dict.empty.insert "1" "/Users/me/t.mp3"

/-- A playlist with one resolvable (Key 1) and one unresolvable (Key 2)
track reference. -/
def mixedPlaylist : XElem :=
  .mk "NODE" [("Type", "1"), ("Name", "PL")]
    (.cons (.mk "TRACK" [("Key", "1")] .nil)
      (.cons (.mk "TRACK" [("Key", "2")] .nil) .nil))

/-! ## C3 -/

/-- C3 counterexample: a folder containing only one empty playlist is
emitted with SUBNODES COUNT "1" (the dropped playlist is still counted),
not "0" as the claim states. -/
theorem C3_counterexample :
    process_playlist_node Dict.empty folderWithEmptyPlaylist =
      [XElem.mk "NODE" [("TYPE", "FOLDER"), ("NAME", "F")]
        (.cons (.mk "SUBNODES" [("COUNT", "1")] .nil) .nil)] := rfl

/-- C3 (amended): when `process_playlist_node` translates a folder node,
every child NODE element contributes 1 to the emitted SUBNODES COUNT,
whether or not the child produced a destination node; the emitted child
nodes are the concatenation of the children's emissions, so a folder
containing only empty playlists has COUNT equal to its number of child
NODEs and zero emitted children. -/
theorem C3_folder_counts_all_children (m : Dict) (node : XElem)
    (hty : get_attribute node "Type" = some "0")
    (hnm : truthy (get_attribute node "Name") = true) :
    ∃ sn : XElem,
      process_playlist_node m node =
        [XElem.mk "NODE" [("TYPE", "FOLDER"), ("NAME", (get_attribute node "Name").getD "")]
          (.cons sn .nil)] ∧
      get_attribute sn "COUNT" = some (toString (findall node "NODE").length) ∧
      sn.children.toList = (findall node "NODE").flatMap (process_playlist_node m) := by
  refine ⟨_, folder_node_eq m node hty hnm, rfl, ?_⟩
  simp [XElem.children, XList.toList_ofList, ppn_children_eq, findall]

/-- C3 witness: the amended statement at the concrete folder. -/
theorem C3_folder_counts_all_children_witness :
    get_attribute folderWithEmptyPlaylist "Type" = some "0" ∧
    truthy (get_attribute folderWithEmptyPlaylist "Name") = true ∧
    (∃ sn : XElem,
      process_playlist_node Dict.empty folderWithEmptyPlaylist =
        [XElem.mk "NODE"
          [("TYPE", "FOLDER"), ("NAME", (get_attribute folderWithEmptyPlaylist "Name").getD "")]
          (.cons sn .nil)] ∧
      get_attribute sn "COUNT" =
        some (toString (findall folderWithEmptyPlaylist "NODE").length) ∧
      sn.children.toList =
        (findall folderWithEmptyPlaylist "NODE").flatMap (process_playlist_node Dict.empty)) :=
  ⟨rfl, rfl, C3_folder_counts_all_children Dict.empty folderWithEmptyPlaylist rfl rfl⟩

/-! ## C4 -/

/-- C4 counterexample: a playlist whose only track reference is
unresolvable still produces a destination playlist node (with ENTRIES "1"
and no ENTRY children) — the claim says no node is created at all. -/
theorem C4_counterexample :
    process_playlist_node Dict.empty playlistOnlyUnresolvable =
      [XElem.mk "NODE" [("TYPE", "PLAYLIST"), ("NAME", "P")]
        (.cons (.mk "PLAYLIST"
          [("ENTRIES", "1"), ("TYPE", "LIST"), ("UUID", uuid4_hex)] .nil) .nil)] := rfl

/-- C4 (amended): for every source playlist node (truthy name, at least
one TRACK element), a destination playlist node is always created; its
entries are exactly the resolvable references (each entry comes from some
reference that resolves), unresolvable references are silently skipped,
and when no reference resolves the playlist is emitted with zero entries.
No error is raised (`process_playlist_node` is total). -/
theorem C4_unresolvable_skipped (m : Dict) (node : XElem)
    (hty : get_attribute node "Type" = some "1")
    (hnm : truthy (get_attribute node "Name") = true)
    (hne : (findall node "TRACK").isEmpty = false) :
    ∃ pn pl : XElem,
      process_playlist_node m node = [pn] ∧
      pn.children = .cons pl .nil ∧
      pl.children.toList = (findall node "TRACK").filterMap (playlist_entry m) ∧
      (∀ e ∈ pl.children.toList,
        ∃ te ∈ findall node "TRACK", playlist_entry m te = some e) ∧
      ((∀ te ∈ findall node "TRACK", playlist_entry m te = none) →
        pl.children.toList = []) := by
  refine ⟨_, _, playlist_node_eq m node hty hnm hne, rfl, ?_, ?_, ?_⟩
  · simp [XElem.children, XList.toList_ofList, playlist_entries]
  · intro e he
    simp only [XElem.children, XList.toList_ofList, playlist_entries] at he
    rcases List.mem_filterMap.mp he with ⟨te, hte, hres⟩
    exact ⟨te, hte, hres⟩
  · intro hall
    simp only [XElem.children, XList.toList_ofList, playlist_entries]
    exact List.filterMap_eq_nil_iff.mpr hall

/-- C4 witness: the amended statement at a concrete playlist with one
resolvable and one unresolvable reference. -/
theorem C4_unresolvable_skipped_witness :
    get_attribute mixedPlaylist "Type" = some "1" ∧
    truthy (get_attribute mixedPlaylist "Name") = true ∧
    (findall mixedPlaylist "TRACK").isEmpty = false ∧
    (∃ pn pl : XElem,
      process_playlist_node mapOnly1 mixedPlaylist = [pn] ∧
      pn.children = .cons pl .nil ∧
      pl.children.toList = (findall mixedPlaylist "TRACK").filterMap (playlist_entry mapOnly1) ∧
      (∀ e ∈ pl.children.toList,
        ∃ te ∈ findall mixedPlaylist "TRACK", playlist_entry mapOnly1 te = some e) ∧
      ((∀ te ∈ findall mixedPlaylist "TRACK", playlist_entry mapOnly1 te = none) →
        pl.children.toList = [])) :=
  ⟨rfl, rfl, rfl, C4_unresolvable_skipped mapOnly1 mixedPlaylist rfl rfl rfl⟩

/-! ## C10 -/

/-- C10: for every source playlist node that produces a destination
playlist node, the PLAYLIST element's ENTRIES attribute equals the number
of source TRACK reference elements, while the emitted ENTRY children are
only the resolvable ones; when some reference is unresolvable the ENTRIES
count strictly exceeds the number of emitted entries. -/
theorem C10_entries_overcount (m : Dict) (node : XElem)
    (hty : get_attribute node "Type" = some "1")
    (hnm : truthy (get_attribute node "Name") = true)
    (hne : (findall node "TRACK").isEmpty = false) :
    ∃ pn pl : XElem,
      process_playlist_node m node = [pn] ∧
      pn.children = .cons pl .nil ∧
      get_attribute pl "ENTRIES" = some (toString (findall node "TRACK").length) ∧
      pl.children.toList.length =
        ((findall node "TRACK").filter (fun te => (playlist_entry m te).isSome)).length ∧
      ((∃ te ∈ findall node "TRACK", (playlist_entry m te).isSome = false) →
        pl.children.toList.length < (findall node "TRACK").length) := by
  refine ⟨_, _, playlist_node_eq m node hty hnm hne, rfl, rfl, ?_, ?_⟩
  · simp [XElem.children, XList.toList_ofList, playlist_entries, length_filterMap_eq]
  · intro hex
    simp only [XElem.children, XList.toList_ofList, playlist_entries, length_filterMap_eq]
    exact length_filter_lt_of_exists_not _ _ hex

/-- C10 witness: the statement at a concrete playlist (one resolvable and
one unresolvable reference). -/
theorem C10_entries_overcount_witness :
    get_attribute mixedPlaylist "Type" = some "1" ∧
    truthy (get_attribute mixedPlaylist "Name") = true ∧
    (findall mixedPlaylist "TRACK").isEmpty = false ∧
    (∃ pn pl : XElem,
      process_playlist_node mapOnly1 mixedPlaylist = [pn] ∧
      pn.children = .cons pl .nil ∧
      get_attribute pl "ENTRIES" = some (toString (findall mixedPlaylist "TRACK").length) ∧
      pl.children.toList.length =
        ((findall mixedPlaylist "TRACK").filter
          (fun te => (playlist_entry mapOnly1 te).isSome)).length ∧
      ((∃ te ∈ findall mixedPlaylist "TRACK",
          (playlist_entry mapOnly1 te).isSome = false) →
        pl.children.toList.length < (findall mixedPlaylist "TRACK").length)) :=
  ⟨rfl, rfl, rfl, C10_entries_overcount mapOnly1 mixedPlaylist rfl rfl rfl⟩

/-! ## Lemmas about the conversion loop (`track_loop`) -/

theorem truthy_some_getD (o : Option String) (h : truthy o = true) :
    o = some (o.getD "") ∧ o.getD "" ≠ "" := by
  cases o with
  | none => simp [truthy] at h
  | some s =>
    refine ⟨rfl, fun hs => ?_⟩
    simp only [Option.getD] at hs
    simp [truthy, hs, String.isEmpty] at h

theorem track_loop_mono (ts : List XElem) :
    ∀ (es : List XElem) (ps : List String) (m : Dict) r,
    track_loop ts es ps m = some r →
    ∀ k, (m.find k).isSome = true → ((r.2.2).find k).isSome = true := by
  induction ts with
  | nil =>
    intro es ps m r h k hk
    simp only [track_loop] at h
    cases h
    exact hk
  | cons t ts ih =>
    intro es ps m r h k hk
    simp only [track_loop] at h
    cases hpt : process_track t with
    | none => rw [hpt] at h; cases h
    | some e =>
      rw [hpt] at h
      simp only [Option.bind_eq_bind, Option.some_bind] at h
      refine ih _ _ _ _ h k ?_
      by_cases htid : truthy (get_attribute t "TrackID") = true
      · simp only [htid, if_true]
        exact dict_find_insert_isSome _ _ _ _ hk
      · simp only [htid, if_false]
        exact hk

theorem track_loop_mapped (ts : List XElem) :
    ∀ (es : List XElem) (ps : List String) (m : Dict) r,
    track_loop ts es ps m = some r →
    ∀ t ∈ ts, truthy (get_attribute t "TrackID") = true →
    ((r.2.2).find ((get_attribute t "TrackID").getD "")).isSome = true := by
  induction ts with
  | nil => intro es ps m r h t ht; cases ht
  | cons t0 ts ih =>
    intro es ps m r h t ht htr
    simp only [track_loop] at h
    cases hpt : process_track t0 with
    | none => rw [hpt] at h; cases h
    | some e =>
      rw [hpt] at h
      simp only [Option.bind_eq_bind, Option.some_bind] at h
      rcases List.mem_cons.mp ht with rfl | hmem
      · refine track_loop_mono ts _ _ _ _ h _ ?_
        simp only [htr, if_true, dict_find_insert_self]
        rfl
      · exact ih _ _ _ _ h t hmem htr

theorem track_loop_map_mem (ts : List XElem) :
    ∀ (es : List XElem) (ps : List String) (m : Dict) r,
    track_loop ts es ps m = some r →
    ∀ p ∈ (r.2.2 : Dict), p ∈ m ∨
      ∃ t ∈ ts, get_attribute t "TrackID" = some p.1 ∧ p.1 ≠ "" ∧
        p.2 = track_file_path t := by
  induction ts with
  | nil =>
    intro es ps m r h p hp
    simp only [track_loop] at h
    cases h
    exact Or.inl hp
  | cons t0 ts ih =>
    intro es ps m r h p hp
    simp only [track_loop] at h
    cases hpt : process_track t0 with
    | none => rw [hpt] at h; cases h
    | some e =>
      rw [hpt] at h
      simp only [Option.bind_eq_bind, Option.some_bind] at h
      rcases ih _ _ _ _ h p hp with hin | ⟨t, htm, h1, h2, h3⟩
      · by_cases htid : truthy (get_attribute t0 "TrackID") = true
        · rw [if_pos htid] at hin
          rcases List.mem_cons.mp hin with rfl | hmm
          · rcases truthy_some_getD _ htid with ⟨heq, hne⟩
            exact Or.inr ⟨t0, List.mem_cons_self t0 ts, heq, hne, rfl⟩
          · exact Or.inl hmm
        · rw [if_neg htid] at hin
          exact Or.inl hin
      · exact Or.inr ⟨t, List.mem_cons_of_mem t0 htm, h1, h2, h3⟩

/-! ## C2 -/

/-- A collection track with no TrackID attribute. -/
def trackNoId : XElem :=
  .mk "TRACK" [("Name", "X"), ("Location", "file://localhost/a/b.mp3")] .nil

/-- A collection track with TrackID 7. -/
def trackWithId : XElem :=
  .mk "TRACK" [("TrackID", "7"), ("Location", "file://localhost/a/c.mp3")] .nil

/-- The collection entry emitted for `trackWithId`. -/
def trackWithIdEntry : XElem :=
  (process_track trackWithId).getD (.mk "" [] .nil)

/-- C2 counterexample: a track with no TrackID attribute is processed
into a collection entry (one entry emitted) while the lookup table stays
empty — so not every emitted entry has a lookup-table entry. -/
theorem C2_counterexample :
    (track_loop [trackNoId] [] [] Dict.empty).map
      (fun r => (r.1.length, r.2.2)) = some (1, Dict.empty) := rfl

/-- C2 (amended): for every source track *with a truthy TrackID
attribute* processed by the conversion loop, the identifier → path lookup
table contains an entry for that track's identifier once the loop (which
runs before playlist translation) finishes. -/
theorem C2_truthy_id_mapped (ts es ps : _) (m : Dict)
    (h : track_loop ts [] [] Dict.empty = some (es, ps, m))
    (t : XElem) (ht : t ∈ ts)
    (hid : truthy (get_attribute t "TrackID") = true) :
    (m.find ((get_attribute t "TrackID").getD "")).isSome = true :=
  track_loop_mapped ts [] [] Dict.empty (es, ps, m) h t ht hid

/-- C2 witness: the amended statement at a one-track input. -/
theorem C2_truthy_id_mapped_witness :
    trackWithId ∈ [trackWithId] ∧
    truthy (get_attribute trackWithId "TrackID") = true ∧
    ((Dict.find [("7", "/a/c.mp3")]
      ((get_attribute trackWithId "TrackID").getD "")).isSome = true) :=
  ⟨List.mem_singleton.mpr rfl, rfl,
    C2_truthy_id_mapped [trackWithId] [trackWithIdEntry] ["/a/c.mp3"]
      [("7", "/a/c.mp3")] rfl trackWithId (List.mem_singleton.mpr rfl) rfl⟩

/-! ## C5 -/

/-- A playlist track-reference with Key 7 (matching `trackWithId`). -/
def refKey7 : XElem := .mk "TRACK" [("Key", "7")] .nil

/-- A playlist node referencing TrackID 7. -/
def playlistKey7 : XElem :=
  .mk "NODE" [("Type", "1"), ("Name", "W")] (.cons refKey7 .nil)

/-- C5: every playlist track reference whose identifier has a match in
the lookup table built by the conversion loop yields an emitted
ENTRY/PRIMARYKEY whose KEY string is exactly the looked-up path, and that
path is byte-identical to the location string `VOLUME ++ DIR ++ FILE`
constructed for the corresponding source track during track emission. -/
theorem C5_roundtrip (ts es ps : _) (m : Dict)
    (h : track_loop ts [] [] Dict.empty = some (es, ps, m))
    (node te : XElem) (tid fp : String)
    (hty : get_attribute node "Type" = some "1")
    (hnm : truthy (get_attribute node "Name") = true)
    (hte : te ∈ findall node "TRACK")
    (hkey : get_attribute te "Key" = some tid)
    (hfind : m.find tid = some fp) :
    (∃ pn pl : XElem, process_playlist_node m node = [pn] ∧
       pn.children = .cons pl .nil ∧
       mkPlaylistEntry fp ∈ pl.children.toList) ∧
    ∃ t ∈ ts, get_attribute t "TrackID" = some tid ∧ fp = track_file_path t := by
  have hmem := dict_find_mem m tid fp hfind
  rcases track_loop_map_mem ts [] [] Dict.empty _ h (tid, fp) hmem with hin | hsrc
  · cases hin
  obtain ⟨t, htm, h1, h2, h3⟩ := hsrc
  constructor
  · have hne : (findall node "TRACK").isEmpty = false := by
      cases hfa : findall node "TRACK" with
      | nil => rw [hfa] at hte; cases hte
      | cons a l => rfl
    refine ⟨_, _, playlist_node_eq m node hty hnm hne, rfl, ?_⟩
    simp only [XElem.children, XList.toList_ofList, playlist_entries]
    refine List.mem_filterMap.mpr ⟨te, hte, ?_⟩
    have htr : truthy (some tid) = true := by
      cases htid0 : tid.isEmpty with
      | true =>
        exact absurd ((String.isEmpty_iff tid).mp htid0) h2
      | false => simp [truthy, htid0]
    simp [playlist_entry, hkey, htr, hfind]
  · exact ⟨t, htm, h1, h3⟩

/-- C5 witness: the round-trip at a one-track, one-playlist input. -/
theorem C5_roundtrip_witness :
    track_loop [trackWithId] [] [] Dict.empty =
      some ([trackWithIdEntry], ["/a/c.mp3"], [("7", "/a/c.mp3")]) ∧
    get_attribute playlistKey7 "Type" = some "1" ∧
    truthy (get_attribute playlistKey7 "Name") = true ∧
    refKey7 ∈ findall playlistKey7 "TRACK" ∧
    get_attribute refKey7 "Key" = some "7" ∧
    Dict.find [("7", "/a/c.mp3")] "7" = some "/a/c.mp3" ∧
    ((∃ pn pl : XElem,
        process_playlist_node [("7", "/a/c.mp3")] playlistKey7 = [pn] ∧
        pn.children = .cons pl .nil ∧
        mkPlaylistEntry "/a/c.mp3" ∈ pl.children.toList) ∧
      ∃ t ∈ [trackWithId], get_attribute t "TrackID" = some "7" ∧
        "/a/c.mp3" = track_file_path t) :=
  ⟨rfl, rfl, rfl, List.mem_singleton.mpr rfl, rfl, rfl,
    C5_roundtrip [trackWithId] [trackWithIdEntry] ["/a/c.mp3"] [("7", "/a/c.mp3")]
      rfl playlistKey7 refKey7 "7" "/a/c.mp3" rfl rfl
      (List.mem_singleton.mpr rfl) rfl rfl⟩

/-! ## C6 -/

/-- A beat marker: CUE_V2 of TYPE 4 (emitted only by `add_beatmarker`). -/
def isBeatMarker (e : XElem) : Bool :=
  e.tag == "CUE_V2" && (get_attribute e "TYPE" == some "4")

/-- A grid anchor: CUE_V2 of TYPE 0 (emitted only by `add_autogrid`). -/
def isGridAnchor (e : XElem) : Bool :=
  e.tag == "CUE_V2" && (get_attribute e "TYPE" == some "0")

theorem isBeatMarker_add_beatmarker (s b : Dec) (a : Bool) :
    isBeatMarker (add_beatmarker s b a) = true := rfl

theorem isGridAnchor_add_beatmarker (s b : Dec) (a : Bool) :
    isGridAnchor (add_beatmarker s b a) = false := rfl

theorem isBeatMarker_add_autogrid (s : Dec) :
    isBeatMarker (add_autogrid s) = false := rfl

theorem isGridAnchor_add_autogrid (s : Dec) :
    isGridAnchor (add_autogrid s) = true := rfl

/-- The multi-marker loop of `process_tempo` at a non-zero position emits
exactly one plain (non-auto-grid) beat marker per TEMPO element, in
source order, and no grid anchors. -/
theorem tempoLoop_no_anchor (bpm : Dec) :
    ∀ (ts : List XElem) (i : Nat), i ≠ 0 → ∀ out, tempoLoop bpm i ts = some out →
    ∃ svs : List (Dec × Dec),
      List.Forall₂
        (fun t sv => tempo_start t = some sv.1 ∧ tempo_bpm bpm t = some sv.2) ts svs ∧
      out = svs.map (fun sv => add_beatmarker sv.1.mul1000 sv.2 false) := by
  intro ts
  induction ts with
  | nil =>
    intro i hi out h
    simp only [tempoLoop] at h
    cases h
    exact ⟨[], List.Forall₂.nil, rfl⟩
  | cons t ts ih =>
    intro i hi out h
    simp only [tempoLoop] at h
    cases htm : tempo_marker bpm i t with
    | none => rw [htm] at h; cases h
    | some cur =>
      rw [htm] at h
      simp only [Option.bind_eq_bind, Option.some_bind] at h
      cases hrest : tempoLoop bpm (i + 1) ts with
      | none => rw [hrest] at h; cases h
      | some rest =>
        rw [hrest] at h
        simp only [Option.bind_eq_bind, Option.some_bind] at h
        cases h
        simp only [tempo_marker, Option.bind_eq_bind, Option.some_bind] at htm
        cases hs : tempo_start t with
        | none => rw [hs] at htm; cases htm
        | some s =>
          rw [hs] at htm
          simp only [Option.bind_eq_bind, Option.some_bind] at htm
          cases hb : tempo_bpm bpm t with
          | none => rw [hb] at htm; cases htm
          | some b =>
            rw [hb] at htm
            simp only [Option.bind_eq_bind, Option.some_bind] at htm
            have hiz : (i == 0) = false := by simp [hi]
            rw [hiz] at htm
            simp only [Bool.false_eq_true, if_false] at htm
            cases htm
            obtain ⟨svs, hf, hout⟩ := ih (i + 1) (Nat.succ_ne_zero i) rest hrest
            refine ⟨(s, b) :: svs, List.Forall₂.cons ⟨hs, hb⟩ hf, ?_⟩
            simp [hout]

theorem filter_isBeatMarker_map_false (svs : List (Dec × Dec)) :
    ((svs.map (fun sv => add_beatmarker sv.1.mul1000 sv.2 false)).filter isBeatMarker)
      = svs.map (fun sv => add_beatmarker sv.1.mul1000 sv.2 false) := by
  induction svs with
  | nil => rfl
  | cons sv svs ih => simp [List.filter_cons, isBeatMarker_add_beatmarker, ih]

theorem filter_isGridAnchor_map_false (svs : List (Dec × Dec)) :
    ((svs.map (fun sv => add_beatmarker sv.1.mul1000 sv.2 false)).filter isGridAnchor)
      = [] := by
  induction svs with
  | nil => rfl
  | cons sv svs ih => simp [List.filter_cons, isGridAnchor_add_beatmarker, ih]

/-- A track with two TEMPO markers whose first Inizio is unparseable. -/
def badTempoTrack : XElem := .mk "TRACK" []
  (.cons (.mk "TEMPO" [("Inizio", "x"), ("Bpm", "100")] .nil)
    (.cons (.mk "TEMPO" [("Inizio", "1"), ("Bpm", "101")] .nil) .nil))

/-- A track with two well-formed TEMPO markers. -/
def twoTempoTrack : XElem := .mk "TRACK" []
  (.cons (.mk "TEMPO" [("Inizio", "1.0"), ("Bpm", "100")] .nil)
    (.cons (.mk "TEMPO" [("Inizio", "2.0"), ("Bpm", "101")] .nil) .nil))

/-- The grid elements `process_tempo` emits for `twoTempoTrack`. -/
def twoTempoOut : List XElem :=
  (process_tempo twoTempoTrack (Dec.ofNat 120)).getD []

/-- C6 counterexample: a track with N = 2 TEMPO elements on which
`process_tempo` raises `ValueError` (unparseable Inizio), emitting no
beat markers at all rather than exactly N. -/
theorem C6_counterexample :
    (findall badTempoTrack "TEMPO").length = 2 ∧
    process_tempo badTempoTrack (Dec.ofNat 120) = none := ⟨rfl, rfl⟩

/-- C6 (amended): for every source track with N ≥ 2 TEMPO elements *on
which `process_tempo` does not raise* (every Inizio/Bpm attribute absent,
empty, or parseable), exactly N beat markers are emitted, one per source
marker and in source order (the k-th beat marker carries the k-th TEMPO
element's parsed start/BPM); only the first is flagged auto-grid and only
the first is paired with an additional grid-anchor entry, which
immediately follows it. -/
theorem C6_beat_markers (track : XElem) (bpm : Dec) (out : List XElem)
    (hn : 2 ≤ (findall track "TEMPO").length)
    (h : process_tempo track bpm = some out) :
    ∃ (s0 b0 : Dec) (t1 : XElem) (ts' : List XElem) (svs' : List (Dec × Dec)),
      findall track "TEMPO" = t1 :: ts' ∧
      tempo_start t1 = some s0 ∧ tempo_bpm bpm t1 = some b0 ∧
      List.Forall₂
        (fun t sv => tempo_start t = some sv.1 ∧ tempo_bpm bpm t = some sv.2) ts' svs' ∧
      out = add_beatmarker s0.mul1000 b0 true :: add_autogrid s0.mul1000 ::
            svs'.map (fun sv => add_beatmarker sv.1.mul1000 sv.2 false) ∧
      (out.filter isBeatMarker).length = (findall track "TEMPO").length ∧
      (out.filter isGridAnchor).length = 1 := by
  obtain ⟨t1, ts1, hts⟩ : ∃ t1 ts1, findall track "TEMPO" = t1 :: ts1 := by
    cases hft : findall track "TEMPO" with
    | nil => rw [hft] at hn; cases hn
    | cons a l => exact ⟨a, l, rfl⟩
  obtain ⟨t2, ts2, hts2⟩ : ∃ t2 ts2, ts1 = t2 :: ts2 := by
    cases hft1 : ts1 with
    | nil => rw [hts, hft1] at hn; simp at hn
    | cons a l => exact ⟨a, l, rfl⟩
  subst hts2
  have h' : tempoLoop bpm 0 (t1 :: t2 :: ts2) = some out := by
    unfold process_tempo at h
    rw [hts] at h
    exact h
  have hstep : tempoLoop bpm 0 (t1 :: t2 :: ts2) =
      Option.bind (tempo_marker bpm 0 t1) (fun cur =>
        Option.bind (tempoLoop bpm 1 (t2 :: ts2)) (fun rest => some (cur ++ rest))) := rfl
  rw [hstep] at h'
  cases htm : tempo_marker bpm 0 t1 with
  | none => rw [htm] at h'; cases h'
  | some cur =>
    rw [htm] at h'
    simp only [Option.some_bind] at h'
    cases hrest : tempoLoop bpm 1 (t2 :: ts2) with
    | none => rw [hrest] at h'; cases h'
    | some rest =>
      rw [hrest] at h'
      simp only [Option.some_bind] at h'
      cases h'
      simp only [tempo_marker, Option.bind_eq_bind, Option.some_bind] at htm
      cases hs : tempo_start t1 with
      | none => rw [hs] at htm; cases htm
      | some s0 =>
        rw [hs] at htm
        simp only [Option.bind_eq_bind, Option.some_bind] at htm
        cases hb : tempo_bpm bpm t1 with
        | none => rw [hb] at htm; cases htm
        | some b0 =>
          rw [hb] at htm
          simp only [Option.bind_eq_bind, Option.some_bind] at htm
          simp only [beq_self_eq_true, if_true] at htm
          cases htm
          obtain ⟨svs', hf, hout⟩ :=
            tempoLoop_no_anchor bpm (t2 :: ts2) 1 (Nat.succ_ne_zero 0) rest hrest
          subst hout
          refine ⟨s0, b0, t1, t2 :: ts2, svs', hts, hs, hb, hf, by simp, ?_, ?_⟩
          · rw [hts]
            have hlen := List.Forall₂.length_eq hf
            simp [List.filter_cons, List.filter_append,
              isBeatMarker_add_beatmarker, isBeatMarker_add_autogrid,
              filter_isBeatMarker_map_false, ← hlen]
          · simp [List.filter_cons, List.filter_append,
              isGridAnchor_add_beatmarker, isGridAnchor_add_autogrid,
              filter_isGridAnchor_map_false]

/-- C6 witness: the amended statement at a concrete two-marker track. -/
theorem C6_beat_markers_witness :
    2 ≤ (findall twoTempoTrack "TEMPO").length ∧
    process_tempo twoTempoTrack (Dec.ofNat 120) = some twoTempoOut ∧
    (∃ (s0 b0 : Dec) (t1 : XElem) (ts' : List XElem) (svs' : List (Dec × Dec)),
      findall twoTempoTrack "TEMPO" = t1 :: ts' ∧
      tempo_start t1 = some s0 ∧ tempo_bpm (Dec.ofNat 120) t1 = some b0 ∧
      List.Forall₂
        (fun t sv => tempo_start t = some sv.1 ∧
          tempo_bpm (Dec.ofNat 120) t = some sv.2) ts' svs' ∧
      twoTempoOut = add_beatmarker s0.mul1000 b0 true :: add_autogrid s0.mul1000 ::
            svs'.map (fun sv => add_beatmarker sv.1.mul1000 sv.2 false) ∧
      (twoTempoOut.filter isBeatMarker).length =
        (findall twoTempoTrack "TEMPO").length ∧
      (twoTempoOut.filter isGridAnchor).length = 1) :=
  ⟨by decide, rfl,
    C6_beat_markers twoTempoTrack (Dec.ofNat 120) twoTempoOut (by decide) rfl⟩

/-! ## C7 -/

/-- A track whose AverageBpm attribute is non-numeric. -/
def trackBpmAbc : XElem := .mk "TRACK" [("AverageBpm", "abc")] .nil

/-- C7: when the AverageBpm attribute is missing/empty (falsy) or does
not parse as a number, the TEMPO block's BPM attribute is the default
120.0 formatted to six decimals; the coercion is total (`safe_float`
returns the default instead of raising). -/
theorem C7_default_bpm (track : XElem)
    (h : truthy (get_attribute track "AverageBpm") = false ∨
         pyFloat ((get_attribute track "AverageBpm").getD "") = none) :
    get_attribute (add_tempo (set_track_info track)) "BPM" = some "120.000000" := by
  have hstep : get_attribute (add_tempo (set_track_info track)) "BPM" =
      some (Dec.format6
        (safe_float (safe_get_attr track "AverageBpm" "120.0") (Dec.ofNat 120))) := rfl
  rw [hstep]
  by_cases hf : truthy (get_attribute track "AverageBpm") = true
  · have hnone : pyFloat ((get_attribute track "AverageBpm").getD "") = none :=
      h.resolve_left (by simp [hf])
    have hval : safe_get_attr track "AverageBpm" "120.0" =
        (get_attribute track "AverageBpm").getD "" := by
      unfold safe_get_attr pyOr
      rw [if_pos hf]
    rw [hval]
    unfold safe_float
    have hne : ((get_attribute track "AverageBpm").getD "").isEmpty = false := by
      rcases truthy_some_getD _ hf with ⟨heq, hnemp⟩
      cases hie : ((get_attribute track "AverageBpm").getD "").isEmpty
      · rfl
      · exact absurd ((String.isEmpty_iff _).mp hie) hnemp
    rw [if_neg (by simp [hne]), hnone]
    rfl
  · have hfalsy : truthy (get_attribute track "AverageBpm") = false := by
      cases htv : truthy (get_attribute track "AverageBpm")
      · rfl
      · exact absurd htv hf
    have hval : safe_get_attr track "AverageBpm" "120.0" = "120.0" := by
      unfold safe_get_attr pyOr
      rw [if_neg (by simp [hfalsy])]
    rw [hval]
    rfl

/-- C7 witness: a non-numeric AverageBpm yields BPM "120.000000". -/
theorem C7_default_bpm_witness :
    (truthy (get_attribute trackBpmAbc "AverageBpm") = false ∨
     pyFloat ((get_attribute trackBpmAbc "AverageBpm").getD "") = none) ∧
    get_attribute (add_tempo (set_track_info trackBpmAbc)) "BPM" = some "120.000000" :=
  ⟨Or.inr rfl, C7_default_bpm trackBpmAbc (Or.inr rfl)⟩

/-! ## C8/C9 helper: full specification of one `add_cue` call -/

/-- A position-mark not named "AutoGrid" (the loop guard of
`process_cues`). -/
def notAutoGrid (pm : XElem) : Bool :=
  !(get_attribute pm "Name" == some "AutoGrid")

/-- What one successful `add_cue` call produces: the threaded index grows
by exactly 1 (whether or not the explicit slot was used), the HOTCUE slot
follows the explicit-Num-else-index rule, and LEN is end − start
milliseconds when End is truthy, else 0. -/
theorem add_cue_spec (i : Nat) (pm c : XElem) (j : Nat)
    (h : add_cue i pm = some (c, j)) :
    j = i + 1 ∧
    get_attribute c "HOTCUE" = some
      (if truthy (get_attribute pm "Num") && ((get_attribute pm "Num").getD "" != "-1")
       then (get_attribute pm "Num").getD "" else toString i) ∧
    (truthy (get_attribute pm "End") = true →
      ∃ s e : Dec, sec_2_ms (get_attribute pm "Start") = some s ∧
        sec_2_ms (get_attribute pm "End") = some e ∧
        get_attribute c "LEN" = some (Dec.sub e s).format6) ∧
    (truthy (get_attribute pm "End") = false →
      get_attribute c "LEN" = some "0.000000") := by
  simp only [add_cue, Option.bind_eq_bind] at h
  cases hst : sec_2_ms (get_attribute pm "Start") with
  | none => rw [hst] at h; cases h
  | some s =>
    rw [hst] at h
    simp only [Option.some_bind] at h
    by_cases hend : truthy (get_attribute pm "End") = true
    · rw [if_pos hend] at h
      cases hen : sec_2_ms (get_attribute pm "End") with
      | none => rw [hen] at h; cases h
      | some e =>
        rw [hen] at h
        simp only [Option.map_some', Option.some_bind] at h
        cases h
        refine ⟨rfl, rfl, fun _ => ⟨s, e, rfl, rfl, rfl⟩, fun hfalse => ?_⟩
        rw [hend] at hfalse
        cases hfalse
    · have hend' : truthy (get_attribute pm "End") = false := by
        cases htv : truthy (get_attribute pm "End")
        · rfl
        · exact absurd htv hend
      rw [if_neg hend] at h
      cases h
      exact ⟨rfl, rfl, fun htrue => absurd htrue hend, fun _ => rfl⟩

/-- The `continue` on marks named "AutoGrid" means `cuesLoop` only ever
sees (and numbers) the non-AutoGrid marks. -/
theorem cuesLoop_filter_eq : ∀ (pms : List XElem) (i : Nat),
    cuesLoop i pms = cuesLoop i (pms.filter notAutoGrid) := by
  intro pms
  induction pms with
  | nil => intro i; rfl
  | cons pm pms ih =>
    intro i
    by_cases hname : (get_attribute pm "Name" == some "AutoGrid") = true
    · have hn : notAutoGrid pm = false := by simp [notAutoGrid, hname]
      simp only [cuesLoop, hname, if_true, List.filter_cons, hn, cond_false]
      exact ih i
    · have hname' : (get_attribute pm "Name" == some "AutoGrid") = false := by
        cases htv : (get_attribute pm "Name" == some "AutoGrid")
        · rfl
        · exact absurd htv hname
      have hn : notAutoGrid pm = true := by simp [notAutoGrid, hname']
      simp only [cuesLoop, hname', List.filter_cons, hn, cond_true,
        Bool.false_eq_true, if_false]
      simp only [ih]

/-! ## C8 -/

/-- A position-mark with a loop (Start and End). -/
def cueMarkLoop : XElem := .mk "POSITION_MARK"
  [("Name", "Cue A"), ("Type", "4"), ("Start", "1.5"), ("End", "3.5"), ("Num", "-1")] .nil

/-- The CUE_V2 element `add_cue` emits for `cueMarkLoop` at index 1. -/
def cueMarkLoopOut : XElem :=
  ((add_cue 1 cueMarkLoop).getD (.mk "" [] .nil, 0)).1

/-- C8: for every translated position-mark, the emitted LEN equals
end-milliseconds minus start-milliseconds when the End attribute is
truthy and 0.000000 otherwise; and marks named "AutoGrid" are skipped
before `add_cue` runs, so they never produce a cue entry. -/
theorem C8_loop_length_and_autogrid :
    (∀ (i : Nat) (pm c : XElem) (j : Nat), add_cue i pm = some (c, j) →
      ((truthy (get_attribute pm "End") = true →
        ∃ s e : Dec, sec_2_ms (get_attribute pm "Start") = some s ∧
          sec_2_ms (get_attribute pm "End") = some e ∧
          get_attribute c "LEN" = some (Dec.sub e s).format6) ∧
       (truthy (get_attribute pm "End") = false →
        get_attribute c "LEN" = some "0.000000"))) ∧
    (∀ (i : Nat) (pms : List XElem),
      cuesLoop i pms = cuesLoop i (pms.filter notAutoGrid)) := by
  constructor
  · intro i pm c j h
    obtain ⟨-, -, h3, h4⟩ := add_cue_spec i pm c j h
    exact ⟨h3, h4⟩
  · intro i pms
    exact cuesLoop_filter_eq pms i

/-- C8 witness: LEN of a concrete loop mark is (3.5 − 1.5) s in ms. -/
theorem C8_loop_length_and_autogrid_witness :
    add_cue 1 cueMarkLoop = some (cueMarkLoopOut, 2) ∧
    truthy (get_attribute cueMarkLoop "End") = true ∧
    (∃ s e : Dec, sec_2_ms (get_attribute cueMarkLoop "Start") = some s ∧
      sec_2_ms (get_attribute cueMarkLoop "End") = some e ∧
      get_attribute cueMarkLoopOut "LEN" = some (Dec.sub e s).format6) ∧
    get_attribute cueMarkLoopOut "LEN" = some "2000.000000" :=
  ⟨rfl, rfl,
    (C8_loop_length_and_autogrid.1 1 cueMarkLoop cueMarkLoopOut 2 rfl).1 rfl, rfl⟩

/-! ## C9 -/

/-- The k-th cue emitted by `cuesLoop` on auto-grid-free marks comes from
the k-th mark, with the threaded index `i + k`. -/
theorem cuesLoop_nth (pms : List XElem)
    (hall : ∀ pm ∈ pms, notAutoGrid pm = true) :
    ∀ i cs j, cuesLoop i pms = some (cs, j) →
    cs.length = pms.length ∧
    ∀ k (hk : k < cs.length) (hk2 : k < pms.length),
      add_cue (i + k) (pms.get ⟨k, hk2⟩) = some (cs.get ⟨k, hk⟩, i + k + 1) := by
  induction pms with
  | nil =>
    intro i cs j h
    simp only [cuesLoop] at h
    cases h
    refine ⟨rfl, ?_⟩
    intro k hk
    cases hk
  | cons pm pms ih =>
    intro i cs j h
    have hpm : notAutoGrid pm = true := hall pm (List.mem_cons_self pm pms)
    have hname : (get_attribute pm "Name" == some "AutoGrid") = false := by
      simpa [notAutoGrid] using hpm
    simp only [cuesLoop, hname, Bool.false_eq_true, if_false,
      Option.bind_eq_bind] at h
    cases hac : add_cue i pm with
    | none => rw [hac] at h; cases h
    | some ci =>
      obtain ⟨c, i1⟩ := ci
      rw [hac] at h
      simp only [Option.some_bind] at h
      have hi1 : i1 = i + 1 := (add_cue_spec i pm c i1 hac).1
      subst hi1
      cases hcl : cuesLoop (i + 1) pms with
      | none => rw [hcl] at h; cases h
      | some csj =>
        obtain ⟨cs', i2⟩ := csj
        rw [hcl] at h
        simp only [Option.some_bind] at h
        cases h
        obtain ⟨ihlen, ihk⟩ :=
          ih (fun q hq => hall q (List.mem_cons_of_mem pm hq)) (i + 1) cs' _ hcl
        refine ⟨by simp [ihlen], ?_⟩
        intro k hk hk2
        match k with
        | 0 => simpa using hac
        | k + 1 =>
          have h1 : k < cs'.length := by simpa using hk
          have h2 : k < pms.length := by simpa using hk2
          have hstep := ihk k h1 h2
          have heq : i + 1 + k = i + (k + 1) := by omega
          rw [heq] at hstep
          simpa [List.get_cons_succ] using hstep

/-- A track with two position-marks: one with an explicit slot, one
without. -/
def cuesTrack : XElem := .mk "TRACK" []
  (.cons (.mk "POSITION_MARK" [("Name", "A"), ("Start", "1"), ("Num", "5")] .nil)
    (.cons (.mk "POSITION_MARK" [("Name", "B"), ("Start", "2")] .nil) .nil))

/-- The cues `process_cues` emits for `cuesTrack` from index 1. -/
def cuesTrackOut : List XElem := ((process_cues cuesTrack 1).getD ([], 0)).1

/-- The final cue index after processing `cuesTrack`. -/
def cuesTrackIdx : Nat := ((process_cues cuesTrack 1).getD ([], 0)).2

/-- C9: each translated position-mark's HOTCUE equals its explicit Num
attribute when truthy and not "-1", else the sequential index starting at
1 (`reset_track` sets `cue_index = 1`; the index advances on every
translated mark, so the fallback for the k-th translated mark is 1 + k). -/
theorem C9_hotcue_assignment (track : XElem) (cs : List XElem) (j : Nat)
    (h : process_cues track 1 = some (cs, j)) :
    cs.length = ((findall track "POSITION_MARK").filter notAutoGrid).length ∧
    ∀ k (hk : k < cs.length)
      (hk2 : k < ((findall track "POSITION_MARK").filter notAutoGrid).length),
      get_attribute (cs.get ⟨k, hk⟩) "HOTCUE" = some
        (if truthy (get_attribute
              (((findall track "POSITION_MARK").filter notAutoGrid).get ⟨k, hk2⟩) "Num")
            && ((get_attribute
              (((findall track "POSITION_MARK").filter notAutoGrid).get ⟨k, hk2⟩)
                "Num").getD "" != "-1")
         then (get_attribute
              (((findall track "POSITION_MARK").filter notAutoGrid).get ⟨k, hk2⟩)
                "Num").getD ""
         else toString (1 + k)) := by
  unfold process_cues at h
  rw [cuesLoop_filter_eq] at h
  have hall : ∀ pm ∈ (findall track "POSITION_MARK").filter notAutoGrid,
      notAutoGrid pm = true := fun pm hpm => List.of_mem_filter hpm
  obtain ⟨hlen, hk⟩ :=
    cuesLoop_nth ((findall track "POSITION_MARK").filter notAutoGrid) hall 1 cs j h
  refine ⟨hlen, ?_⟩
  intro k hkc hkp
  exact (add_cue_spec _ _ _ _ (hk k hkc hkp)).2.1

/-- C9 witness: explicit slot "5" for the first mark, sequential slot
"2" for the second. -/
theorem C9_hotcue_assignment_witness :
    process_cues cuesTrack 1 = some (cuesTrackOut, cuesTrackIdx) ∧
    (cuesTrackOut.length =
      ((findall cuesTrack "POSITION_MARK").filter notAutoGrid).length ∧
    ∀ k (hk : k < cuesTrackOut.length)
      (hk2 : k < ((findall cuesTrack "POSITION_MARK").filter notAutoGrid).length),
      get_attribute (cuesTrackOut.get ⟨k, hk⟩) "HOTCUE" = some
        (if truthy (get_attribute
              (((findall cuesTrack "POSITION_MARK").filter notAutoGrid).get
                ⟨k, hk2⟩) "Num")
            && ((get_attribute
              (((findall cuesTrack "POSITION_MARK").filter notAutoGrid).get
                ⟨k, hk2⟩) "Num").getD "" != "-1")
         then (get_attribute
              (((findall cuesTrack "POSITION_MARK").filter notAutoGrid).get
                ⟨k, hk2⟩) "Num").getD ""
         else toString (1 + k))) :=
  ⟨rfl, C9_hotcue_assignment cuesTrack cuesTrackOut cuesTrackIdx rfl⟩

/-! ## C1 -/

/-- The C1 scenario's collection track: TrackID 1, no TEMPO children, no
POSITION_MARK children, empty AverageBpm. -/
def c1Track : XElem := .mk "TRACK"
  [("TrackID", "1"), ("Name", "T"), ("Artist", "A"), ("AverageBpm", ""),
   ("Location", "file://localhost/Users/me/t.mp3")] .nil

/-- The C1 scenario's playlist track-reference to TrackID 1. -/
def c1Ref : XElem := .mk "TRACK" [("Key", "1")] .nil

/-- The C1 scenario document: one collection track and one playlist
referencing it. -/
def c1Doc : XElem := .mk "DJ_PLAYLISTS" []
  (.cons (.mk "COLLECTION" [("Entries", "1")] (.cons c1Track .nil))
  (.cons (.mk "PLAYLISTS" []
    (.cons (.mk "NODE" [("Type", "0"), ("Name", "ROOT")]
      (.cons (.mk "NODE" [("Type", "1"), ("Name", "P")] (.cons c1Ref .nil)) .nil))
      .nil))
  .nil))

/-- C1 evidence: on the scenario document the emitted COLLECTION carries
ENTRIES "2" and holds two ENTRY elements — not exactly one — because the
track scan `root.findall(".//TRACK")` also matches the playlist's
track-reference element; the playlist side of the scenario does hold (one
entry whose KEY is the constructed path). -/
theorem C1_collection_double_count :
    ((convert_xml_to_nml c1Doc).map (fun r =>
      (r.children.toList.get? 1).map (fun coll =>
        (get_attribute coll "ENTRIES", coll.children.toList.length))) =
      some (some (some "2", 2))) ∧
    ((convert_xml_to_nml c1Doc).map (fun r =>
      (r.children.toList.get? 3).map (fun pls =>
        (descendants pls).filterMap (fun e =>
          if e.tag == "PRIMARYKEY" then some (get_attribute e "KEY") else none))) =
      some (some [some "/Users/me/t.mp3"])) ∧
    track_file_path c1Track = "/Users/me/t.mp3" :=
  ⟨rfl, rfl, rfl⟩

end RekordNml


